import Mathlib

/-!
Shallow embedding of the booking lifecycle engine of the
booking-management backend: the Booking model (schema methods
`calculateCancellationFee`, `canBeCancelled`, the `checkAvailability`
static, the pre-save hook) and the controller operations
(`createBooking`, `cancelBooking`, `cancelBookingUser`, `rejectBooking`,
`updateBookingStatus`).

Conventions of the embedding:
* JS numbers (amounts, hour differences) are rationals `ℚ`.
* Wall-clock times "HH:MM" are minutes since midnight (`Nat`); the
  MongoDB `$lt`/`$gt` string comparisons on zero-padded "HH:MM" strings
  agree with the numeric order.
* The current clock enters only through `hoursUntilBooking`, the value
  `(bookingDateTime - now) / 3600000` that the schema methods compute;
  it is passed explicitly as a parameter `h : ℚ`.
* Mongoose documents become a `Booking` structure holding the fields the
  claims touch; `find` over a collection becomes `List.filter`.
* The acting user's `role` is kept as the literal `String` the code
  compares against (`"admin"`, `"provider"`, `"service_provider"`, ...),
  because the User schema constrains stored roles to
  `user / admin / service_provider` while the controller compares with
  other literals.
-/

inductive BookingStatus
  | pending | confirmed | in_progress | completed | cancelled | no_show
  deriving DecidableEq, Repr

inductive PaymentStatus
  | pending | paid | failed | refunded | partially_refunded
  deriving DecidableEq, Repr

/-- The `cancelledBy` enum of the booking schema: a role tag. -/
inductive CancelledBy
  | user | provider | admin | system
  deriving DecidableEq, Repr

structure Booking where
  id : Nat
  user : Nat
  service : Nat
  provider : Nat
  bookingDate : Nat
  startTime : Nat
  endTime : Nat
  duration : ℚ
  status : BookingStatus
  totalAmount : ℚ
  paymentStatus : PaymentStatus
  cancellationFee : ℚ
  refundAmount : ℚ
  cancelledBy : Option CancelledBy
  cancellationReason : Option String
  deriving DecidableEq, Repr

structure Service where
  id : Nat
  provider : Nat
  price : ℚ
  isActive : Bool
  deriving DecidableEq, Repr

/-- `bookingSchema.methods.calculateCancellationFee`: branches on the
hours between now and the booking start (`h`). -/
def calculateCancellationFee (totalAmount h : ℚ) : ℚ :=
  if 48 < h then 0
  else if 24 < h then totalAmount * (1/10)
  else if 2 < h then totalAmount * (1/2)
  else totalAmount

/-- `bookingSchema.methods.canBeCancelled`:
`status === 'confirmed' && hoursUntilBooking > 24`. -/
def canBeCancelled (status : BookingStatus) (h : ℚ) : Bool :=
  status == .confirmed && decide (24 < h)

/-- `bookingSchema.statics.checkAvailability`: the Mongo query
`{ service, bookingDate, status ∈ {confirmed,pending},
   startTime < endTime-arg, endTime > startTime-arg, _id ≠ exclude }`
run over the collection; it returns the list of matching documents. -/
def checkAvailability (bookings : List Booking) (serviceId date startTime endTime : Nat)
    (excludeBookingId : Option Nat) : List Booking :=
  bookings.filter (fun b =>
    b.service == serviceId && b.bookingDate == date &&
    (b.status == .confirmed || b.status == .pending) &&
    decide (b.startTime < endTime) && decide (b.endTime > startTime) &&
    (match excludeBookingId with
     | none => true
     | some ex => b.id != ex))

/-- JS truthiness of the array that `Booking.checkAvailability` resolves
to: in JS every object, an empty array included, is truthy, so
`!isAvailable` in the controller is false for every array. -/
def arrayTruthy (_l : List Booking) : Bool := true

/-- The availability predicate as §4.1 of the spec words it:
`isAvailable ... → boolean`, true iff no conflicting booking exists.
Used only to compare the spec's reading with the code's behaviour. -/
def isAvailableSpec (bookings : List Booking) (serviceId date startTime endTime : Nat)
    (excludeBookingId : Option Nat) : Bool :=
  (checkAvailability bookings serviceId date startTime endTime excludeBookingId).isEmpty

/-- `bookingSchema.pre('save')`: when the status field was modified, the
status is `cancelled` and `cancelledBy` is set, recompute
`cancellationFee = calculateCancellationFee()` and
`refundAmount = totalAmount - cancellationFee`. `h` is the
hours-until-booking at save time. -/
def preSaveHook (b : Booking) (statusModified : Bool) (h : ℚ) : Booking :=
  if statusModified && b.status == .cancelled && b.cancelledBy.isSome then
    let fee := calculateCancellationFee b.totalAmount h
    { b with cancellationFee := fee, refundAmount := b.totalAmount - fee }
  else b

inductive CreateErr
  | ServiceNotFound | ServiceInactive | SlotUnavailable
  deriving DecidableEq, Repr

/-- `exports.createBooking` (bookingController): looks the service up,
checks `isActive`, runs the availability query, then builds the booking
with `totalAmount = unitPrice × duration`, status and paymentStatus
`pending`. `!isAvailable` tests JS truthiness of the resolved array. -/
def createBooking (services : List Service) (bookings : List Booking)
    (userId serviceId date startTime endTime : Nat) (duration : ℚ) (newId : Nat) :
    Except CreateErr Booking :=
  match services.find? (fun s => s.id == serviceId) with
  | none => .error .ServiceNotFound
  | some service =>
    if !service.isActive then .error .ServiceInactive
    else
      let isAvailable := checkAvailability bookings serviceId date startTime endTime none
      if !(arrayTruthy isAvailable) then .error .SlotUnavailable
      else
        -- `Number(req.body.duration) || 1`
        let duration := if duration == 0 then 1 else duration
        let totalAmount := service.price * duration
        .ok { id := newId, user := userId, service := serviceId,
              provider := service.provider, bookingDate := date,
              startTime := startTime, endTime := endTime, duration := duration,
              status := .pending, totalAmount := totalAmount,
              paymentStatus := .pending, cancellationFee := 0, refundAmount := 0,
              cancelledBy := none, cancellationReason := none }

inductive CancelErr
  | NotAuthorized | CannotCancel
  deriving DecidableEq, Repr

/-- The `cancelledBy` tag assignment shared by both cancel controllers:
`role === 'admin' → 'admin'; role === 'provider' → 'provider';
else 'user'`. -/
def cancelledByOfRole (role : String) : CancelledBy :=
  if role == "admin" then .admin
  else if role == "provider" then .provider
  else .user

/-- `exports.cancelBooking` (strict policy): ownership/role guard,
`canBeCancelled()` guard, then fee `= calculateCancellationFee()`,
role-derived `cancelledBy`, `refundAmount = totalAmount - fee`, save
(which runs the pre-save hook). -/
def cancelBooking (b : Booking) (actorId : Nat) (actorRole : String)
    (reason : Option String) (h : ℚ) : Except CancelErr Booking :=
  if !(b.user == actorId || b.provider == actorId || actorRole == "admin") then
    .error .NotAuthorized
  else if !(canBeCancelled b.status h) then .error .CannotCancel
  else
    let cancellationFee := calculateCancellationFee b.totalAmount h
    let b' := { b with
      status := .cancelled,
      cancelledBy := some (cancelledByOfRole actorRole),
      cancellationReason := reason,
      cancellationFee := cancellationFee,
      refundAmount := b.totalAmount - cancellationFee }
    .ok (preSaveHook b' (b.status != .cancelled) h)

/-- `exports.cancelBookingUser` (user-friendly policy): pending always
cancellable with fee 0; confirmed only when `canBeCancelled()`. -/
def cancelBookingUser (b : Booking) (actorId : Nat) (actorRole : String)
    (reason : Option String) (h : ℚ) : Except CancelErr Booking :=
  if !(b.user == actorId || b.provider == actorId || actorRole == "admin") then
    .error .NotAuthorized
  else
    let isPending := b.status == .pending
    let isConfirmed := b.status == .confirmed
    if !(isPending || (isConfirmed && canBeCancelled b.status h)) then
      .error .CannotCancel
    else
      let cancellationFee := if isConfirmed then calculateCancellationFee b.totalAmount h else 0
      let b' := { b with
        status := .cancelled,
        cancelledBy := some (cancelledByOfRole actorRole),
        cancellationReason := reason,
        cancellationFee := cancellationFee,
        refundAmount := b.totalAmount - cancellationFee }
      .ok (preSaveHook b' (b.status != .cancelled) h)

/-- JS `String.prototype.trim`, executed on the character list: strips
leading and trailing whitespace. -/
def jsTrim (s : String) : String :=
  String.mk (((s.data.dropWhile Char.isWhitespace).reverse.dropWhile Char.isWhitespace).reverse)

inductive RejectErr
  | NotProvider | NotPending | ReasonRequired
  deriving DecidableEq, Repr

/-- `exports.rejectBooking`: provider-only, pending-only, non-empty
reason, then status `cancelled`, `cancelledBy = provider`, fee 0, full
refund, save (pre-save hook included). -/
def rejectBooking (b : Booking) (actorId : Nat) (reason : Option String) (h : ℚ) :
    Except RejectErr Booking :=
  if b.provider != actorId then .error .NotProvider
  else if b.status != .pending then .error .NotPending
  else if (jsTrim (reason.getD "")).length == 0 then .error .ReasonRequired
  else
    let b' := { b with
      status := .cancelled,
      cancelledBy := some .provider,
      cancellationReason := reason,
      cancellationFee := 0,
      refundAmount := b.totalAmount }
    .ok (preSaveHook b' (b.status != .cancelled) h)

/-- The `validTransitions` table of `exports.updateBookingStatus`. -/
def validTransitions (s : BookingStatus) : List BookingStatus :=
  match s with
  | .pending => [.confirmed, .cancelled]
  | .confirmed => [.in_progress, .completed, .cancelled, .no_show]
  | .in_progress => [.completed, .cancelled]
  | .completed => []
  | .cancelled => []
  | .no_show => []

inductive UpdateErr
  | NotAuthorized
  | InvalidTransition (cur target : BookingStatus)
  | ReasonRequired
  deriving DecidableEq, Repr

/-- `exports.updateBookingStatus`: provider/admin guard, transition-table
guard, cancellation handling (reason required; fee from
`calculateCancellationFee` when the current status is confirmed, else 0
with full refund), then the status assignment and save. -/
def updateBookingStatus (b : Booking) (actorId : Nat) (actorRole : String)
    (target : BookingStatus) (reason : Option String) (h : ℚ) :
    Except UpdateErr Booking :=
  if !(b.provider == actorId || actorRole == "admin") then .error .NotAuthorized
  else if !((validTransitions b.status).contains target) then
    .error (.InvalidTransition b.status target)
  else if target == .cancelled then
    if (jsTrim (reason.getD "")).length == 0 then .error .ReasonRequired
    else
      let cancelledBy : CancelledBy := if actorRole == "admin" then .admin else .provider
      let b1 :=
        if b.status == .confirmed then
          let fee := calculateCancellationFee b.totalAmount h
          { b with cancelledBy := some cancelledBy, cancellationReason := reason,
                   cancellationFee := fee, refundAmount := b.totalAmount - fee }
        else
          { b with cancelledBy := some cancelledBy, cancellationReason := reason,
                   cancellationFee := 0, refundAmount := b.totalAmount }
      let b2 := { b1 with status := target }
      .ok (preSaveHook b2 (b.status != target) h)
  else
    let b2 := { b with status := target }
    .ok (preSaveHook b2 (b.status != target) h)

/-! ### Fixtures for concrete evaluations -/

/-- An hourly service priced 50, active, owned by provider 4. -/
def sampleService : Service := { id := 3, provider := 4, price := 50, isActive := true }

/-- A pending two-hour booking (10:00-12:00, minutes 600-720) of service 3
by user 2, totalAmount 100. -/
def sampleBooking : Booking :=
  { id := 1, user := 2, service := 3, provider := 4, bookingDate := 0,
    startTime := 600, endTime := 720, duration := 2, status := .pending,
    totalAmount := 100, paymentStatus := .pending, cancellationFee := 0,
    refundAmount := 0, cancelledBy := none, cancellationReason := none }

/-- The same booking after provider confirmation. -/
def confirmedBooking : Booking := { sampleBooking with status := .confirmed }

/-! ### Helper lemmas -/

theorem preSaveHook_status (b : Booking) (m : Bool) (h : ℚ) :
    (preSaveHook b m h).status = b.status := by
  unfold preSaveHook; split <;> rfl

theorem preSaveHook_totalAmount (b : Booking) (m : Bool) (h : ℚ) :
    (preSaveHook b m h).totalAmount = b.totalAmount := by
  unfold preSaveHook; split <;> rfl

/-- After the pre-save hook, a booking that already satisfied
`refundAmount = totalAmount - cancellationFee` still satisfies
`refundAmount + cancellationFee = totalAmount`. -/
theorem preSaveHook_balanced (b : Booking) (m : Bool) (h : ℚ)
    (hb : b.refundAmount = b.totalAmount - b.cancellationFee) :
    (preSaveHook b m h).refundAmount + (preSaveHook b m h).cancellationFee
      = (preSaveHook b m h).totalAmount := by
  unfold preSaveHook; split
  · simp
  · simp [hb]

/-! ### C3 — cancellation-fee shape -/

/-- C3 counterexample: the claim places each breakpoint in the lower-fee
bracket ("at exactly 48 hours the fee is 0, not 10%"), but the code's
strict `>` comparisons put every boundary in the higher-fee bracket: at
exactly 48 hours the fee is 10% of a 100 total, namely 10, not 0. -/
theorem c3_boundary_counterexample :
    calculateCancellationFee 100 48 = 10 ∧ calculateCancellationFee 100 48 ≠ 0 := by
  norm_num [calculateCancellationFee]

/-- C3 (amended): `calculateCancellationFee` is monotonically
non-increasing in the hours until booking, constant on each of the
brackets `(48,∞)`, `(24,48]`, `(2,24]`, `(-∞,2]` with values `0`,
`totalAmount/10`, `totalAmount/2`, `totalAmount`, so its value changes
exactly at the breakpoints 2, 24 and 48 hours, each boundary value
belonging to the higher-fee bracket (exactly 48h → 10%, exactly
24h → 50%, exactly 2h → 100%). -/
theorem c3_fee_monotone_and_breakpoints (t : ℚ) (ht : 0 ≤ t) :
    (∀ h1 h2 : ℚ, h1 ≤ h2 →
      calculateCancellationFee t h2 ≤ calculateCancellationFee t h1) ∧
    (∀ h : ℚ, 48 < h → calculateCancellationFee t h = 0) ∧
    (∀ h : ℚ, 24 < h → h ≤ 48 → calculateCancellationFee t h = t * (1/10)) ∧
    (∀ h : ℚ, 2 < h → h ≤ 24 → calculateCancellationFee t h = t * (1/2)) ∧
    (∀ h : ℚ, h ≤ 2 → calculateCancellationFee t h = t) := by
  refine ⟨?_, ?_, ?_, ?_, ?_⟩ <;> intros <;>
    unfold calculateCancellationFee <;> split_ifs <;>
    first | rfl | linarith

/-- Witness for C3: the amended theorem applied at totalAmount 100 and
the 48-hour boundary. -/
theorem c3_fee_witness :
    calculateCancellationFee 100 48 = 100 * (1/10) :=
  (c3_fee_monotone_and_breakpoints 100 (by norm_num)).2.2.1 48
    (by norm_num) (by norm_num)

/-! ### C9 — the pre-save hook overwrites fee and refund -/

/-- C9: whenever a booking is saved with its status modified to
`cancelled` and `cancelledBy` set, the pre-save hook overwrites
`cancellationFee` with `calculateCancellationFee` evaluated at save time
and sets `refundAmount = totalAmount - fee`, whatever fee/refund values
the controller had assigned. -/
theorem c9_presave_overwrites_fee (b : Booking) (h : ℚ)
    (hs : b.status = .cancelled) (hc : b.cancelledBy.isSome = true) :
    (preSaveHook b true h).cancellationFee = calculateCancellationFee b.totalAmount h ∧
    (preSaveHook b true h).refundAmount
      = b.totalAmount - calculateCancellationFee b.totalAmount h := by
  unfold preSaveHook
  simp [hs, hc]

/-- A cancelled draft as `rejectBooking` builds it before the save:
fee 0 and full refund assigned by the controller. -/
def rejectedDraft : Booking :=
  { sampleBooking with
    status := .cancelled, cancelledBy := some .provider,
    cancellationReason := some "unavailable",
    cancellationFee := 0, refundAmount := 100 }

/-- Witness for C9: the hook applied 10 hours before start to a draft
the controller had given fee 0 / refund 100. -/
theorem c9_presave_witness :
    (preSaveHook rejectedDraft true 10).cancellationFee
      = calculateCancellationFee rejectedDraft.totalAmount 10 ∧
    (preSaveHook rejectedDraft true 10).refundAmount
      = rejectedDraft.totalAmount - calculateCancellationFee rejectedDraft.totalAmount 10 :=
  c9_presave_overwrites_fee rejectedDraft 10 rfl rfl

/-! ### C10 — strict cancel path reaches only the 0% and 10% brackets -/

/-- C10: a booking that passes `canBeCancelled` (confirmed, more than 24
hours out) gets a fee of either 0 or 10% of `totalAmount` at the same
clock instant, and every booking the strict `cancelBooking` path
persists carries such a fee; the 50% and 100% brackets are unreachable
through it. -/
theorem c10_strict_cancel_fee_brackets (b : Booking) (actorId : Nat)
    (actorRole : String) (reason : Option String) (h : ℚ) :
    (canBeCancelled b.status h = true →
      calculateCancellationFee b.totalAmount h = 0 ∨
      calculateCancellationFee b.totalAmount h = b.totalAmount * (1/10)) ∧
    (∀ b', cancelBooking b actorId actorRole reason h = .ok b' →
      b'.cancellationFee = 0 ∨ b'.cancellationFee = b.totalAmount * (1/10)) := by
  have bracket : 24 < h →
      calculateCancellationFee b.totalAmount h = 0 ∨
      calculateCancellationFee b.totalAmount h = b.totalAmount * (1/10) := by
    intro h24
    unfold calculateCancellationFee
    by_cases h48 : 48 < h
    · rw [if_pos h48]; exact Or.inl rfl
    · rw [if_neg h48, if_pos h24]; exact Or.inr rfl
  constructor
  · intro hcb
    have h24 : 24 < h := by
      unfold canBeCancelled at hcb
      simp only [Bool.and_eq_true, decide_eq_true_eq] at hcb
      exact hcb.2
    exact bracket h24
  · intro b' hok
    unfold cancelBooking at hok
    split_ifs at hok with hauth hguard
    have hcb : canBeCancelled b.status h = true := by
      simpa using hguard
    have h24 : 24 < h := by
      unfold canBeCancelled at hcb
      simp only [Bool.and_eq_true, decide_eq_true_eq] at hcb
      exact hcb.2
    have hfee : b'.cancellationFee = calculateCancellationFee b.totalAmount h := by
      cases hok
      unfold preSaveHook
      split <;> rfl
    rw [hfee]
    exact bracket h24

/-- Witness for C10: a confirmed booking 30 hours before start. -/
theorem c10_witness :
    calculateCancellationFee confirmedBooking.totalAmount 30 = 0 ∨
    calculateCancellationFee confirmedBooking.totalAmount 30
      = confirmedBooking.totalAmount * (1/10) :=
  (c10_strict_cancel_fee_brackets confirmedBooking 2 "user" none 30).1 (by decide)

/-! ### C4 — refund + fee = total on every cancellation path -/

/-- C4: every operation that persists a cancelled booking — the strict
cancel, the user-friendly cancel, the provider reject, and a status
update to cancelled — leaves `refundAmount + cancellationFee =
totalAmount` on the saved booking. -/
theorem c4_refund_fee_total (b : Booking) (actorId : Nat) (actorRole : String)
    (reason : Option String) (h : ℚ) :
    (∀ b', cancelBooking b actorId actorRole reason h = .ok b' →
      b'.refundAmount + b'.cancellationFee = b'.totalAmount) ∧
    (∀ b', cancelBookingUser b actorId actorRole reason h = .ok b' →
      b'.refundAmount + b'.cancellationFee = b'.totalAmount) ∧
    (∀ b', rejectBooking b actorId reason h = .ok b' →
      b'.refundAmount + b'.cancellationFee = b'.totalAmount) ∧
    (∀ b', updateBookingStatus b actorId actorRole .cancelled reason h = .ok b' →
      b'.refundAmount + b'.cancellationFee = b'.totalAmount) := by
  refine ⟨?_, ?_, ?_, ?_⟩
  · intro b' hok
    simp only [cancelBooking] at hok
    split_ifs at hok <;> (cases hok; refine preSaveHook_balanced _ _ _ ?_; simp)
  · intro b' hok
    simp only [cancelBookingUser] at hok
    split_ifs at hok <;> (cases hok; refine preSaveHook_balanced _ _ _ ?_; simp)
  · intro b' hok
    simp only [rejectBooking] at hok
    split_ifs at hok <;> (cases hok; refine preSaveHook_balanced _ _ _ ?_; simp)
  · intro b' hok
    simp only [updateBookingStatus, beq_self_eq_true, if_true] at hok
    split_ifs at hok <;> (cases hok; refine preSaveHook_balanced _ _ _ ?_; simp)

/-- The booking the user-friendly cancel persists for `sampleBooking`
10 hours before start: the hook has overwritten fee/refund to 50/50. -/
def sampleUserCancelResult : Booking :=
  { sampleBooking with
    status := .cancelled, cancelledBy := some .user,
    cancellationReason := some "late",
    cancellationFee := 50, refundAmount := 50 }

/-- Witness for C4: the user-friendly cancel of the pending sample
booking 10 hours out. -/
theorem c4_witness :
    sampleUserCancelResult.refundAmount + sampleUserCancelResult.cancellationFee
      = sampleUserCancelResult.totalAmount :=
  (c4_refund_fee_total sampleBooking 2 "user" (some "late") 10).2.1
    sampleUserCancelResult (by
      simp [cancelBookingUser, sampleBooking, sampleUserCancelResult, preSaveHook,
        calculateCancellationFee, canBeCancelled, cancelledByOfRole]
      norm_num)

/-! ### C2 — the status-transition table -/

theorem updateBookingStatus_ok_status (b : Booking) (actorId : Nat) (actorRole : String)
    (target : BookingStatus) (reason : Option String) (h : ℚ) (b' : Booking)
    (hok : updateBookingStatus b actorId actorRole target reason h = .ok b') :
    b'.status = target := by
  simp only [updateBookingStatus] at hok
  split_ifs at hok <;> (cases hok; rw [preSaveHook_status])

/-- C2 counterexample: the claim says every pair in the transition table
succeeds, but the in-table transition pending → cancelled with an empty
reason fails with the reason-required error, not with success. -/
theorem c2_empty_reason_counterexample :
    BookingStatus.cancelled ∈ validTransitions sampleBooking.status ∧
    updateBookingStatus sampleBooking 4 "service_provider" .cancelled none 0
      = .error .ReasonRequired := by
  constructor
  · decide
  · simp [updateBookingStatus, sampleBooking, validTransitions, jsTrim]

/-- C2 (amended): for an authorized actor, `updateBookingStatus` fails
with `InvalidTransition` naming the current and requested status exactly
when the pair is outside the transition table; every in-table pair
succeeds with the resulting status equal to the target, provided a
transition to `cancelled` carries a non-empty reason — without one it
fails with a reason-required error instead. -/
theorem c2_status_update_transition_table (b : Booking) (actorId : Nat)
    (actorRole : String) (target : BookingStatus) (reason : Option String) (h : ℚ)
    (hauth : b.provider = actorId ∨ actorRole = "admin") :
    (updateBookingStatus b actorId actorRole target reason h
        = .error (.InvalidTransition b.status target)
      ↔ target ∉ validTransitions b.status) ∧
    (target ∈ validTransitions b.status →
      (target = .cancelled → (jsTrim (reason.getD "")).length ≠ 0) →
      ∃ b', updateBookingStatus b actorId actorRole target reason h = .ok b' ∧
        b'.status = target) ∧
    (target ∈ validTransitions b.status → target = .cancelled →
      (jsTrim (reason.getD "")).length = 0 →
      updateBookingStatus b actorId actorRole target reason h = .error .ReasonRequired) := by
  have hA : (!(b.provider == actorId || actorRole == "admin")) = false := by
    rcases hauth with h1 | h1 <;> simp [h1]
  by_cases hct : target ∈ validTransitions b.status
  · by_cases htc : target = .cancelled
    · subst htc
      by_cases hr : (jsTrim (reason.getD "")).length = 0
      · have hval : updateBookingStatus b actorId actorRole .cancelled reason h
            = .error .ReasonRequired := by
          simp [updateBookingStatus, hA, hct, hr]
        refine ⟨?_, ?_, ?_⟩
        · simp [hval, hct]
        · intro _ hne; exact absurd hr (hne rfl)
        · intro _ _ _; exact hval
      · obtain ⟨b', hb'⟩ : ∃ b',
            updateBookingStatus b actorId actorRole .cancelled reason h = .ok b' := by
          simp [updateBookingStatus, hA, hct, hr]
        refine ⟨?_, ?_, ?_⟩
        · simp [hb', hct]
        · intro _ _
          exact ⟨b', hb',
            updateBookingStatus_ok_status b actorId actorRole _ reason h b' hb'⟩
        · intro _ _ hr'; exact absurd hr' hr
    · obtain ⟨b', hb'⟩ : ∃ b',
          updateBookingStatus b actorId actorRole target reason h = .ok b' := by
        simp [updateBookingStatus, hA, hct, htc]
      refine ⟨?_, ?_, ?_⟩
      · simp [hb', hct]
      · intro _ _
        exact ⟨b', hb',
          updateBookingStatus_ok_status b actorId actorRole target reason h b' hb'⟩
      · intro _ htc' _; exact absurd htc' htc
  · have hval : updateBookingStatus b actorId actorRole target reason h
        = .error (.InvalidTransition b.status target) := by
      simp [updateBookingStatus, hA, hct]
    refine ⟨?_, ?_, ?_⟩
    · simp [hval, hct]
    · intro hct'; exact absurd hct' hct
    · intro hct' _ _; exact absurd hct' hct

/-- Witness for C2: the provider confirms the pending sample booking. -/
theorem c2_witness :
    ∃ b', updateBookingStatus sampleBooking 4 "service_provider" .confirmed none 0 = .ok b' ∧
      b'.status = .confirmed :=
  (c2_status_update_transition_table sampleBooking 4 "service_provider" .confirmed none 0
    (Or.inl rfl)).2.1 (by decide) (by intro hc; cases hc)

/-! ### C7 — the conflict predicate of the availability query -/

/-- C7: a booking is in the conflict set of `checkAvailability` iff it is
a stored booking of the same service and calendar date, its status is
pending or confirmed, its half-open interval overlaps the requested one
(`s1 < e2` and `s2 < e1`, so back-to-back bookings never conflict), and
it is not the excluded booking. -/
theorem c7_checkAvailability_characterization (bookings : List Booking)
    (serviceId date s e : Nat) (excl : Option Nat) (b : Booking) :
    b ∈ checkAvailability bookings serviceId date s e excl ↔
      (b ∈ bookings ∧ b.service = serviceId ∧ b.bookingDate = date ∧
       (b.status = .pending ∨ b.status = .confirmed) ∧
       b.startTime < e ∧ s < b.endTime ∧
       (∀ ex, excl = some ex → b.id ≠ ex)) := by
  cases excl <;>
    simp [checkAvailability, List.mem_filter, and_assoc] <;> tauto

/-! ### C1 — the availability check resolves to an array, not a boolean -/

/-- C1, failing input: one pending booking of service 3 occupies
10:00-12:00 (600-720); a request for 10:30-12:30 (630-750) conflicts, so
the spec-worded availability predicate is false — yet the array the
query resolves to is truthy, `!isAvailable` is false, and `createBooking`
creates the booking instead of failing with the slot-unavailable error. -/
theorem c1_availability_truthiness_bug :
    isAvailableSpec [sampleBooking] 3 0 630 750 none = false ∧
    arrayTruthy (checkAvailability [sampleBooking] 3 0 630 750 none) = true ∧
    (createBooking [sampleService] [sampleBooking] 2 3 0 630 750 2 99).map
        Booking.status = .ok .pending := by
  refine ⟨by decide, rfl, ?_⟩
  norm_num [createBooking, sampleService, sampleBooking, arrayTruthy, Except.map]

/-! ### C5 — the pre-save hook overwrites the reject path's zero fee -/

/-- C5, failing input: the provider rejects the pending sample booking
(totalAmount 100) 10 hours before start with reason "unavailable". The
controller assigns fee 0 and full refund, but the save's pre-save hook
overwrites them with the 50% bracket: the persisted booking carries
fee 50 and refund 50, not fee 0 and refund 100. -/
theorem c5_reject_fee_overwritten :
    (rejectBooking sampleBooking 4 (some "unavailable") 10).map
        (fun b => (b.status, b.cancelledBy, b.cancellationFee, b.refundAmount))
      = .ok (.cancelled, some .provider, 50, 50) := by
  norm_num [rejectBooking, sampleBooking, preSaveHook, calculateCancellationFee, Except.map,
    show (jsTrim "unavailable").length = 11 from by decide] <;> simp

/-! ### C6 — creation outcomes -/

/-- C6 evaluated: with service price 50/hr and duration 2h the created
booking has totalAmount 100 and pending status/paymentStatus; a missing
service yields ServiceNotFound and an inactive one ServiceInactive — but
with a conflicting pending booking in store (conflict set non-empty) the
creation still succeeds instead of failing with SlotUnavailable. -/
theorem c6_create_booking_eval :
    (createBooking [sampleService] [sampleBooking] 2 3 0 630 750 2 99).map
        (fun b => (b.totalAmount, b.status, b.paymentStatus))
      = .ok (100, .pending, .pending) ∧
    createBooking [] [sampleBooking] 2 3 0 630 750 2 99 = .error .ServiceNotFound ∧
    createBooking [{ sampleService with isActive := false }] [] 2 3 0 630 750 2 99
      = .error .ServiceInactive ∧
    (checkAvailability [sampleBooking] 3 0 630 750 none).isEmpty = false := by
  refine ⟨?_, by simp [createBooking], ?_, by decide⟩
  · norm_num [createBooking, sampleService, sampleBooking, arrayTruthy, Except.map]
  · simp [createBooking, sampleService]

/-! ### C8 — role tag on cancellation -/

/-- C8, failing input: the booking's provider, whose stored role string
is "service_provider", cancels a confirmed booking 30 hours out; the
controller compares the role against the literal "provider", which never
matches, so the persisted `cancelledBy` is `user`, not `provider`. -/
theorem c8_provider_cancel_tagged_user :
    cancelledByOfRole "service_provider" = .user ∧
    (cancelBooking confirmedBooking 4 "service_provider" (some "busy") 30).map
        Booking.cancelledBy = .ok (some .user) := by
  refine ⟨by decide, ?_⟩
  norm_num [cancelBooking, confirmedBooking, sampleBooking, preSaveHook,
    calculateCancellationFee, canBeCancelled, cancelledByOfRole, Except.map] <;> simp
